import Mathlib

/-!
Verification of the identity / token-issuance service: a shallow embedding
of the auth service (registration, login, token issuance, JWK publication)
together with proofs of its specified properties.

The handlers (registerHandler, loginHandler, jwkHandler) and the startup
key initialisation (initApp, embedding the key-setup part of main) are
translated from the Go source.  The cryptographic library operations the
source calls (bcrypt hashing, the RFC 7638 key thumbprint, the request
binding validator) are not part of the repository; they are modelled from
the spec, and each such definition says so in its doc comment.
-/

namespace AuthService

/-! ## Credential Verifier (bcrypt), modelled from the spec -/

/-- Modelled from the spec: the one-way digest computed by the password
hashing function over the cost factor, the salt, and the password.  The
real digest is a bcrypt key-derivation output; it is modelled as a
concrete function that is injective in the salt and password, standing in
for a collision-free derivation. -/
def bcryptDigest (cost salt : Nat) (password : String) : String :=
  toString cost ++ "|" ++ toString salt ++ "|" ++ password

/-- A parsed bcrypt hash: the fields embedded in the encoded hash string
(cost factor, salt, digest).  This record models the fixed-format hash
string the spec describes: two records are equal exactly when the encoded
strings are equal. -/
structure HashedCredential where
  cost : Nat
  salt : Nat
  digest : String
deriving DecidableEq, Repr

/-- A stored credential as read back from the credential store: either a
well-formed bcrypt hash or a structurally malformed string. -/
inductive StoredHash where
  | wellFormed (h : HashedCredential)
  | malformed (raw : String)
deriving DecidableEq, Repr

def bcryptMinCost : Nat := 4
def bcryptMaxCost : Nat := 31
def bcryptDefaultCost : Nat := 10

def costOutOfRangeMsg : String := "crypto bcrypt: cost out of range"

/-- Modelled from the spec: hash(password) -> hashedCredential.  The salt
is drawn from a secure random source by the library; it is passed here
explicitly.  Fails only when the cost factor is out of the supported
range (the HashingFailure case); the handlers always call it with the
in-range default cost. -/
def bcryptGenerateFromPassword (password : String) (cost salt : Nat) :
    Except String HashedCredential :=
  if bcryptMaxCost < cost then
    Except.error costOutOfRangeMsg
  else
    Except.ok { cost := cost, salt := salt, digest := bcryptDigest cost salt password }

inductive BcryptError where
  | mismatchedHashAndPassword
  | invalidHash
deriving DecidableEq, Repr

/-- Modelled from the spec: the library comparison the login handler
calls.  Returns none on a match, an error value on a mismatch or on a
structurally malformed stored hash (the Go library reports both as a
non-nil error). -/
def bcryptCompareHashAndPassword (stored : StoredHash) (password : String) :
    Option BcryptError :=
  match stored with
  | StoredHash.malformed _ => some BcryptError.invalidHash
  | StoredHash.wellFormed h =>
      if h.digest = bcryptDigest h.cost h.salt password then none
      else some BcryptError.mismatchedHashAndPassword

def malformedHashMsg : String := "invalid hashed credential: "

/-- Modelled from the spec: verify(password, hashedCredential) -> bool.
Returns false (not an error) for a non-matching password; returns an
error only if the stored credential is structurally malformed. -/
def verify (password : String) (stored : StoredHash) : Except String Bool :=
  match stored with
  | StoredHash.malformed raw => Except.error (malformedHashMsg ++ raw)
  | StoredHash.wellFormed h => Except.ok (h.digest == bcryptDigest h.cost h.salt password)

/-! ## Key Custodian and Key Publisher -/

/-- An RSA public key: modulus and public exponent. -/
structure RSAPublicKey where
  n : Nat
  e : Nat
deriving DecidableEq, Repr

/-- An RSA private key; its public half is the pair (n, e). -/
structure RSAPrivateKey where
  n : Nat
  e : Nat
  d : Nat
deriving DecidableEq, Repr

def RSAPrivateKey.publicKey (k : RSAPrivateKey) : RSAPublicKey :=
  { n := k.n, e := k.e }

/-- The key identifier value computed by the thumbprint.  It records the
public key fields the hash is taken over: the content hash of the spec is
modelled as an injective function of the public key bytes. -/
structure Thumbprint where
  modulus : Nat
  exponent : Nat
deriving DecidableEq, Repr

/-- Modelled from the spec: the deterministic content hash of the public
key bytes used as the kid (the RFC 7638 thumbprint the jwk library
computes).  Collision freedom with overwhelming probability is modelled
as injectivity. -/
def thumbprint (pub : RSAPublicKey) : Thumbprint :=
  { modulus := pub.n, exponent := pub.e }

def ktyRSA : String := "RSA"
def algRS256 : String := "RS256"

/-- A JWK entry as published: public key material plus kid and algorithm
metadata.  It has no field for private material. -/
structure JWKKey where
  kty : String
  n : Nat
  e : Nat
  kid : Option Thumbprint
  alg : Option String
deriving DecidableEq, Repr

/-- jwk.New over an RSA public key: a JWK carrying only the public
fields, with kid and alg not yet set. -/
def jwkNew (pub : RSAPublicKey) : JWKKey :=
  { kty := ktyRSA, n := pub.n, e := pub.e, kid := none, alg := none }

/-- jwk.AssignKeyID: sets the kid to the thumbprint of the key's own
public fields. -/
def jwkAssignKeyID (j : JWKKey) : JWKKey :=
  { j with kid := some (thumbprint { n := j.n, e := j.e }) }

def JWKKey.keyID (j : JWKKey) : Option Thumbprint := j.kid

/-- jwk.NewSet: the empty key set. -/
def jwkNewSet : List JWKKey := []

/-- Set.Add: appends a key to the set. -/
def jwkSetAdd (s : List JWKKey) (j : JWKKey) : List JWKKey := s ++ [j]

/-- The process-wide state established by main at startup: the private
key, the JWK derived from its public half (with kid and alg set), and
the published key set holding that single JWK.  Read-only after
construction. -/
structure AppState where
  rsaKey : RSAPrivateKey
  rsaKeyJWK : JWKKey
  jwkKeySet : List JWKKey
deriving DecidableEq, Repr

/-- The key-setup portion of main: generate (receive) the key pair,
build the JWK from the public key, assign the kid, set alg to RS256, and
publish a one-element key set. -/
def initApp (key : RSAPrivateKey) : AppState :=
  let j0 := jwkNew key.publicKey
  let j1 := jwkAssignKeyID j0
  let j2 := { j1 with alg := some algRS256 }
  { rsaKey := key, rsaKeyJWK := j2, jwkKeySet := jwkSetAdd jwkNewSet j2 }

/-! ## Token Issuer -/

/-- The claims set the login handler builds. -/
structure TokenClaims where
  sub : Nat
  email : String
  roles : List String
  exp : Nat
deriving DecidableEq, Repr

/-- The token header: signing algorithm plus the kid set by the login
handler. -/
structure TokenHeader where
  alg : String
  kid : Option Thumbprint
deriving DecidableEq, Repr

/-- An RS256 signature, modelled as the signing key together with the
signed content. -/
structure RSASignature where
  keyN : Nat
  keyD : Nat
  signedHeader : TokenHeader
  signedClaims : TokenClaims
deriving DecidableEq, Repr

/-- Modelled from the spec: signing with the private half of the key
pair. -/
def rsaSignRS256 (key : RSAPrivateKey) (header : TokenHeader) (claims : TokenClaims) :
    RSASignature :=
  { keyN := key.n, keyD := key.d, signedHeader := header, signedClaims := claims }

structure SignedToken where
  header : TokenHeader
  claims : TokenClaims
  signature : RSASignature
deriving DecidableEq, Repr

def roleUser : String := "user"

def secondsPerDay : Nat := 24 * 3600

/-- The token construction inside loginHandler: claims {sub, email,
roles, exp = now + 24h}, header alg RS256 with the kid of the process
JWK, signed with the private key. -/
def issueToken (st : AppState) (user_id : Nat) (username : String) (now : Nat) :
    SignedToken :=
  let claims : TokenClaims :=
    { sub := user_id, email := username, roles := [roleUser], exp := now + secondsPerDay }
  let header : TokenHeader := { alg := algRS256, kid := st.rsaKeyJWK.keyID }
  { header := header, claims := claims, signature := rsaSignRS256 st.rsaKey header claims }

/-! ## Users, requests and binding validation -/

/-- A stored user row: id, username (the email handle), and the stored
password hash string. -/
structure User where
  id : Nat
  username : String
  password : StoredHash
deriving DecidableEq, Repr

/-- The registration request body with its binding tags
(email: required,email; password: required,min=8). -/
structure RegisterRequest where
  email : String
  password : String
deriving DecidableEq, Repr

/-- The login request body; same binding tags as RegisterRequest. -/
structure loginRequest where
  email : String
  password : String
deriving DecidableEq, Repr

def atChar : Char := Char.ofNat 64

/-- Modelled from the spec: the email-format check of the binding
validator, abstracted to a simple well-formedness test: the handle
contains the at sign, and not as its first or last character. -/
def validEmail (s : String) : Bool :=
  s.data.contains atChar
    && !(s.data.head? == some atChar)
    && !(s.data.getLast? == some atChar)

def fieldError (structName fieldName tagName : String) : String :=
  "Key: " ++ structName ++ "." ++ fieldName ++
    " Error:Field validation for " ++ fieldName ++
    " failed on the " ++ tagName ++ " tag"

def emailFieldName : String := "Email"
def passwordFieldName : String := "Password"
def requiredTag : String := "required"
def emailTag : String := "email"
def minTag : String := "min"

/-- Modelled from the spec: validation of the Email field against the
tags required,email. -/
def emailFieldErrors (structName email : String) : List String :=
  if email = "" then [fieldError structName emailFieldName requiredTag]
  else if validEmail email then []
  else [fieldError structName emailFieldName emailTag]

/-- Modelled from the spec: validation of the Password field against the
tags required,min=8 (minimum length policy of 8 characters). -/
def passwordFieldErrors (structName password : String) : List String :=
  if password = "" then [fieldError structName passwordFieldName requiredTag]
  else if password.length < 8 then [fieldError structName passwordFieldName minTag]
  else []

def newlineSep : String := "\n"

def registerStructName : String := "RegisterRequest"
def loginStructName : String := "loginRequest"

/-- ShouldBindJSON for RegisterRequest: none when all field validations
pass, otherwise the combined validation error message. -/
def bindRegisterRequest (req : RegisterRequest) : Option String :=
  match emailFieldErrors registerStructName req.email ++
        passwordFieldErrors registerStructName req.password with
  | [] => none
  | errs => some (String.intercalate newlineSep errs)

/-- ShouldBindJSON for loginRequest: none when all field validations
pass, otherwise the combined validation error message. -/
def bindLoginRequest (req : loginRequest) : Option String :=
  match emailFieldErrors loginStructName req.email ++
        passwordFieldErrors loginStructName req.password with
  | [] => none
  | errs => some (String.intercalate newlineSep errs)

/-! ## Handlers -/

def failedHashMsg : String := "Failed to hash password"
def failedRegisterMsg : String := "Failed to register user"
def invalidCredentialsMsg : String := "Invalid email or password"
def failedTokenMsg : String := "Failed to create token"

/-- The registration endpoint response: HTTP 400 with a binding error,
HTTP 500 with an internal error, or HTTP 201 with the created identity's
id and email. -/
inductive RegisterResult where
  | badRequest (errMsg : String)
  | internalError (errMsg : String)
  | created (id : Nat) (email : String)
deriving DecidableEq, Repr

/-- Observable effects of a registration request: whether a password
hash computation was attempted and whether a store insert was
attempted. -/
structure RegisterTrace where
  hashAttempted : Bool
  insertAttempted : Bool
deriving DecidableEq, Repr

/-- registerHandler: bind and validate the request, hash the password
with the default cost, insert the new user, and answer with the new id
and email.  The fresh uuid, the salt drawn by the library, and the
store's insert outcome are passed as inputs. -/
def registerHandler (newId salt : Nat) (insertOk : Bool) (req : RegisterRequest) :
    RegisterResult × RegisterTrace :=
  match bindRegisterRequest req with
  | some msg => (RegisterResult.badRequest msg, { hashAttempted := false, insertAttempted := false })
  | none =>
    match bcryptGenerateFromPassword req.password bcryptDefaultCost salt with
    | Except.error _ =>
        (RegisterResult.internalError failedHashMsg,
         { hashAttempted := true, insertAttempted := false })
    | Except.ok hashed =>
        let newUser : User := { id := newId, username := req.email, password := StoredHash.wellFormed hashed }
        if insertOk then
          (RegisterResult.created newUser.id newUser.username,
           { hashAttempted := true, insertAttempted := true })
        else
          (RegisterResult.internalError failedRegisterMsg,
           { hashAttempted := true, insertAttempted := true })

/-- The login endpoint response: HTTP 400 with a binding error, HTTP 401
with the generic invalid-credentials message, HTTP 500, or HTTP 200 with
the signed token. -/
inductive LoginResult where
  | badRequest (errMsg : String)
  | unauthorized (errMsg : String)
  | internalError (errMsg : String)
  | ok (token : SignedToken)
deriving DecidableEq, Repr

/-- Observable effects of a login request: whether the credential store
was queried. -/
structure LoginTrace where
  storeQueried : Bool
deriving DecidableEq, Repr

/-- loginHandler: bind and validate the request, look the user up by
username, compare the stored hash against the submitted password, and on
success issue a signed token.  The store lookup is passed as a
function. -/
def loginHandler (st : AppState) (findByUsername : String → Option User)
    (now : Nat) (req : loginRequest) : LoginResult × LoginTrace :=
  match bindLoginRequest req with
  | some msg => (LoginResult.badRequest msg, { storeQueried := false })
  | none =>
    match findByUsername req.email with
    | none => (LoginResult.unauthorized invalidCredentialsMsg, { storeQueried := true })
    | some user =>
      match bcryptCompareHashAndPassword user.password req.password with
      | some _ => (LoginResult.unauthorized invalidCredentialsMsg, { storeQueried := true })
      | none =>
          (LoginResult.ok (issueToken st user.id user.username now), { storeQueried := true })

/-- A JSON response with its HTTP status. -/
structure JSONResponse (β : Type) where
  status : Nat
  body : β
deriving DecidableEq, Repr

/-- jwkHandler: serves the published key set with status 200. -/
def jwkHandler (st : AppState) : JSONResponse (List JWKKey) :=
  { status := 200, body := st.jwkKeySet }

/-! ## Concrete fixtures used by the witnesses -/

def key0 : RSAPrivateKey := { n := 3233, e := 17, d := 413 }

def key1 : RSAPrivateKey := { n := 3233, e := 17, d := 2753 }

def pub0 : RSAPublicKey := { n := 3233, e := 17 }

def pub1 : RSAPublicKey := { n := 3233, e := 3 }

def email0 : String := "a@example.com"

def password0 : String := "longpassword1"

def wrongPassword0 : String := "wrongpass"

def hash0 : HashedCredential :=
  { cost := 10, salt := 5, digest := bcryptDigest 10 5 password0 }

def user0 : User :=
  { id := 1, username := email0, password := StoredHash.wellFormed hash0 }

def findUser0 : String → Option User :=
  fun handle => if handle = email0 then some user0 else none

def findNone : String → Option User := fun _ => none

def loginReq0 : loginRequest := { email := email0, password := password0 }

/-! ## Theorems -/

/-- Claim C1: for every identity and issuance time, the token produced by
loginHandler on successful authentication carries exactly the claims
sub = the identity's id, email = the identity's handle, roles = the
singleton user role, and exp = now + 24 hours, and its header kid equals
the kid of the (single) key in the published key set. -/
theorem c1_token_claims_and_kid (key : RSAPrivateKey) (find : String → Option User)
    (req : loginRequest) (user : User) (now : Nat)
    (hbind : bindLoginRequest req = none)
    (hfind : find req.email = some user)
    (hcmp : bcryptCompareHashAndPassword user.password req.password = none) :
    ∃ tok : SignedToken,
      (loginHandler (initApp key) find now req).1 = LoginResult.ok tok
      ∧ tok.claims.sub = user.id
      ∧ tok.claims.email = user.username
      ∧ tok.claims.roles = [roleUser]
      ∧ tok.claims.exp = now + secondsPerDay
      ∧ (initApp key).jwkKeySet = [(initApp key).rsaKeyJWK]
      ∧ tok.header.kid = (initApp key).rsaKeyJWK.keyID := by
  refine ⟨issueToken (initApp key) user.id user.username now, ?_, rfl, rfl, rfl, rfl, rfl, rfl⟩
  simp [loginHandler, hbind, hfind, hcmp]

/-- Witness for C1: concrete key, store, user and request. -/
theorem c1_token_claims_and_kid_witness :
    ∃ tok : SignedToken,
      (loginHandler (initApp key0) findUser0 1000000 loginReq0).1 = LoginResult.ok tok
      ∧ tok.claims.sub = user0.id
      ∧ tok.claims.email = user0.username
      ∧ tok.claims.roles = [roleUser]
      ∧ tok.claims.exp = 1000000 + secondsPerDay
      ∧ (initApp key0).jwkKeySet = [(initApp key0).rsaKeyJWK]
      ∧ tok.header.kid = (initApp key0).rsaKeyJWK.keyID :=
  c1_token_claims_and_kid key0 findUser0 loginReq0 user0 1000000
    (by decide) (by decide) (by decide)

/-- Claim C2: the published key set holds exactly one entry whose kid and
public material are derived from the startup key pair; it carries no
private material (two private keys with the same public half publish the
same set), and jwkHandler serves exactly that set, unchanged, on every
call. -/
theorem c2_published_key_set (k k2 : RSAPrivateKey) (hpub : k.publicKey = k2.publicKey) :
    (initApp k).jwkKeySet =
      [{ kty := ktyRSA, n := k.n, e := k.e,
         kid := some (thumbprint k.publicKey), alg := some algRS256 }]
    ∧ (initApp k).jwkKeySet.length = 1
    ∧ (initApp k).jwkKeySet = (initApp k2).jwkKeySet
    ∧ jwkHandler (initApp k) = { status := 200, body := (initApp k).jwkKeySet } := by
  have hn : k.n = k2.n := congrArg RSAPublicKey.n hpub
  have he : k.e = k2.e := congrArg RSAPublicKey.e hpub
  refine ⟨rfl, rfl, ?_, rfl⟩
  simp [initApp, jwkSetAdd, jwkNewSet, jwkAssignKeyID, jwkNew,
    RSAPrivateKey.publicKey, thumbprint, hn, he]

/-- Witness for C2: two concrete private keys sharing a public half. -/
theorem c2_published_key_set_witness :
    (initApp key0).jwkKeySet =
      [{ kty := ktyRSA, n := key0.n, e := key0.e,
         kid := some (thumbprint key0.publicKey), alg := some algRS256 }]
    ∧ (initApp key0).jwkKeySet.length = 1
    ∧ (initApp key0).jwkKeySet = (initApp key1).jwkKeySet
    ∧ jwkHandler (initApp key0) = { status := 200, body := (initApp key0).jwkKeySet } :=
  c2_published_key_set key0 key1 (by decide)

/-- Claim C7: the kid is computed deterministically from the public key
bytes: it equals the thumbprint of the public half, two private keys
with the same public half get the same kid, and distinct public keys
yield distinct kids. -/
theorem c7_kid_deterministic_and_injective (k k2 : RSAPrivateKey) (p1 p2 : RSAPublicKey)
    (hpub : k.publicKey = k2.publicKey) (hne : p1 ≠ p2) :
    (initApp k).rsaKeyJWK.keyID = some (thumbprint k.publicKey)
    ∧ (initApp k).rsaKeyJWK.keyID = (initApp k2).rsaKeyJWK.keyID
    ∧ thumbprint p1 ≠ thumbprint p2 := by
  refine ⟨rfl, ?_, ?_⟩
  · rw [show (initApp k).rsaKeyJWK.keyID = some (thumbprint k.publicKey) from rfl,
        show (initApp k2).rsaKeyJWK.keyID = some (thumbprint k2.publicKey) from rfl, hpub]
  · intro h
    apply hne
    cases p1
    cases p2
    simpa [thumbprint, Thumbprint.mk.injEq, RSAPublicKey.mk.injEq] using h

/-- Witness for C7: concrete keys and two distinct public keys. -/
theorem c7_kid_deterministic_and_injective_witness :
    (initApp key0).rsaKeyJWK.keyID = some (thumbprint key0.publicKey)
    ∧ (initApp key0).rsaKeyJWK.keyID = (initApp key1).rsaKeyJWK.keyID
    ∧ thumbprint pub0 ≠ thumbprint pub1 :=
  c7_kid_deterministic_and_injective key0 key1 pub0 pub1 (by decide) (by decide)

def wrongLoginReq0 : loginRequest := { email := email0, password := wrongPassword0 }

def badHash0 : HashedCredential := { cost := 10, salt := 5, digest := "garbage" }

/-- Claim C3: for a well-formed login body, an absent handle and a
present handle with a non-verifying password produce the very same
rejection outcome: status 401 with the one generic invalid-credentials
message. -/
theorem c3_uniform_rejection (st : AppState) (find1 find2 : String → Option User)
    (now1 now2 : Nat) (req : loginRequest) (user : User) (e : BcryptError)
    (hbind : bindLoginRequest req = none)
    (habsent : find1 req.email = none)
    (hpresent : find2 req.email = some user)
    (hfail : bcryptCompareHashAndPassword user.password req.password = some e) :
    loginHandler st find1 now1 req =
        (LoginResult.unauthorized invalidCredentialsMsg, { storeQueried := true })
    ∧ loginHandler st find2 now2 req =
        (LoginResult.unauthorized invalidCredentialsMsg, { storeQueried := true })
    ∧ loginHandler st find1 now1 req = loginHandler st find2 now2 req := by
  refine ⟨?_, ?_, ?_⟩ <;> simp [loginHandler, hbind, habsent, hpresent, hfail]

/-- Witness for C3: an unknown handle and a known handle with a wrong
password, against the concrete store. -/
theorem c3_uniform_rejection_witness :
    loginHandler (initApp key0) findNone 1000000 wrongLoginReq0 =
        (LoginResult.unauthorized invalidCredentialsMsg, { storeQueried := true })
    ∧ loginHandler (initApp key0) findUser0 2000000 wrongLoginReq0 =
        (LoginResult.unauthorized invalidCredentialsMsg, { storeQueried := true })
    ∧ loginHandler (initApp key0) findNone 1000000 wrongLoginReq0 =
        loginHandler (initApp key0) findUser0 2000000 wrongLoginReq0 :=
  c3_uniform_rejection (initApp key0) findNone findUser0 1000000 2000000
    wrongLoginReq0 user0 BcryptError.mismatchedHashAndPassword
    (by decide) (by decide) (by decide) (by decide)

/-- Claim C4: for every password and salt, hashing with the default cost
succeeds and the produced hash verifies against the same password, both
through the spec verifier and through the comparison the login handler
performs. -/
theorem c4_verify_roundtrip (p : String) (salt : Nat) :
    ∃ h : HashedCredential,
      bcryptGenerateFromPassword p bcryptDefaultCost salt = Except.ok h
      ∧ verify p (StoredHash.wellFormed h) = Except.ok true
      ∧ bcryptCompareHashAndPassword (StoredHash.wellFormed h) p = none := by
  refine ⟨{ cost := bcryptDefaultCost, salt := salt,
            digest := bcryptDigest bcryptDefaultCost salt p }, ?_, ?_, ?_⟩
  · simp [bcryptGenerateFromPassword, bcryptDefaultCost, bcryptMaxCost]
  · simp [verify]
  · simp [bcryptCompareHashAndPassword]

/-- Claim C5: verify answers Except.ok false (not an error) on a
mismatching password, answers Except.ok on every structurally
well-formed credential, and errors exactly on a malformed credential. -/
theorem c5_verify_error_discipline (p : String) (hc : HashedCredential) (raw : String)
    (hne : hc.digest ≠ bcryptDigest hc.cost hc.salt p) :
    verify p (StoredHash.wellFormed hc) = Except.ok false
    ∧ (∀ h2 : HashedCredential, ∃ b : Bool, verify p (StoredHash.wellFormed h2) = Except.ok b)
    ∧ (∃ msg : String, verify p (StoredHash.malformed raw) = Except.error msg) := by
  refine ⟨?_, fun h2 => ⟨_, rfl⟩, ⟨_, rfl⟩⟩
  have hb : (hc.digest == bcryptDigest hc.cost hc.salt p) = false :=
    beq_eq_false_iff_ne.mpr hne
  simp [verify, hb]

/-- Witness for C5: a concrete non-matching stored hash and a malformed
stored string. -/
theorem c5_verify_error_discipline_witness :
    verify password0 (StoredHash.wellFormed badHash0) = Except.ok false
    ∧ (∀ h2 : HashedCredential,
        ∃ b : Bool, verify password0 (StoredHash.wellFormed h2) = Except.ok b)
    ∧ (∃ msg : String,
        verify password0 (StoredHash.malformed "nothash") = Except.error msg) :=
  c5_verify_error_discipline password0 badHash0 "nothash" (by decide)

/-- Claim C8: hashing the same password with two different (fresh) salts
yields two different hash values, and both verify against the
password. -/
theorem c8_salted_hashes_differ (p : String) (s1 s2 : Nat) (hne : s1 ≠ s2) :
    ∃ h1 h2 : HashedCredential,
      bcryptGenerateFromPassword p bcryptDefaultCost s1 = Except.ok h1
      ∧ bcryptGenerateFromPassword p bcryptDefaultCost s2 = Except.ok h2
      ∧ h1 ≠ h2
      ∧ verify p (StoredHash.wellFormed h1) = Except.ok true
      ∧ verify p (StoredHash.wellFormed h2) = Except.ok true := by
  refine ⟨{ cost := bcryptDefaultCost, salt := s1,
            digest := bcryptDigest bcryptDefaultCost s1 p },
          { cost := bcryptDefaultCost, salt := s2,
            digest := bcryptDigest bcryptDefaultCost s2 p }, ?_, ?_, ?_, ?_, ?_⟩
  · simp [bcryptGenerateFromPassword, bcryptDefaultCost, bcryptMaxCost]
  · simp [bcryptGenerateFromPassword, bcryptDefaultCost, bcryptMaxCost]
  · simp [HashedCredential.mk.injEq, hne]
  · simp [verify]
  · simp [verify]

/-- Witness for C8: the fixture password with two concrete distinct
salts. -/
theorem c8_salted_hashes_differ_witness :
    ∃ h1 h2 : HashedCredential,
      bcryptGenerateFromPassword password0 bcryptDefaultCost 0 = Except.ok h1
      ∧ bcryptGenerateFromPassword password0 bcryptDefaultCost 1 = Except.ok h2
      ∧ h1 ≠ h2
      ∧ verify password0 (StoredHash.wellFormed h1) = Except.ok true
      ∧ verify password0 (StoredHash.wellFormed h2) = Except.ok true :=
  c8_salted_hashes_differ password0 0 1 (by decide)

def shortPassword0 : String := "short"

def shortRegisterReq0 : RegisterRequest := { email := email0, password := shortPassword0 }

def shortLoginReq0 : loginRequest := { email := email0, password := shortPassword0 }

def registerReq0 : RegisterRequest := { email := email0, password := password0 }

def altPassword0 : String := "anotherlongpw"

theorem passwordFieldErrors_ne_nil (structName password : String)
    (h : password.length < 8) : passwordFieldErrors structName password ≠ [] := by
  unfold passwordFieldErrors
  by_cases h0 : password = ""
  · simp [h0]
  · simp [h0, h]

theorem emailFieldErrors_ne_nil (structName email : String)
    (h : validEmail email = false) : emailFieldErrors structName email ≠ [] := by
  unfold emailFieldErrors
  by_cases h0 : email = ""
  · simp [h0]
  · simp [h0, h]

theorem bindRegisterRequest_some (req : RegisterRequest)
    (h : req.password.length < 8 ∨ validEmail req.email = false) :
    ∃ msg, bindRegisterRequest req = some msg := by
  have hne : emailFieldErrors registerStructName req.email ++
      passwordFieldErrors registerStructName req.password ≠ [] := by
    rcases h with h | h
    · intro hnil
      exact passwordFieldErrors_ne_nil registerStructName req.password h
        (List.append_eq_nil.mp hnil).2
    · intro hnil
      exact emailFieldErrors_ne_nil registerStructName req.email h
        (List.append_eq_nil.mp hnil).1
  unfold bindRegisterRequest
  rcases List.exists_cons_of_ne_nil hne with ⟨a, l, heq⟩
  rw [heq]
  exact ⟨_, rfl⟩

theorem bindLoginRequest_some (req : loginRequest) (h : req.password.length < 8) :
    ∃ msg, bindLoginRequest req = some msg := by
  have hne : emailFieldErrors loginStructName req.email ++
      passwordFieldErrors loginStructName req.password ≠ [] := by
    intro hnil
    exact passwordFieldErrors_ne_nil loginStructName req.password h
      (List.append_eq_nil.mp hnil).2
  unfold bindLoginRequest
  rcases List.exists_cons_of_ne_nil hne with ⟨a, l, heq⟩
  rw [heq]
  exact ⟨_, rfl⟩

/-- Claim C6: a registration whose password is shorter than 8 characters
(or whose email is not email-formatted) is rejected as a validation
failure, with no hash computation attempted and no store insert
attempted. -/
theorem c6_register_validation_short_circuit (newId salt : Nat) (insertOk : Bool)
    (req : RegisterRequest)
    (h : req.password.length < 8 ∨ validEmail req.email = false) :
    ∃ msg, registerHandler newId salt insertOk req =
      (RegisterResult.badRequest msg,
       { hashAttempted := false, insertAttempted := false }) := by
  obtain ⟨msg, hmsg⟩ := bindRegisterRequest_some req h
  exact ⟨msg, by simp [registerHandler, hmsg]⟩

/-- Witness for C6: a concrete registration with the 5-character
password. -/
theorem c6_register_validation_short_circuit_witness :
    ∃ msg, registerHandler 7 3 true shortRegisterReq0 =
      (RegisterResult.badRequest msg,
       { hashAttempted := false, insertAttempted := false }) :=
  c6_register_validation_short_circuit 7 3 true shortRegisterReq0 (Or.inl (by decide))

/-- Claim C9: a successful registration answers exactly the created
identity's id and email, and the response never carries the plaintext
password or the computed hash: replacing the password by any other
password that also passes validation leaves every possible response
unchanged. -/
theorem c9_register_response_minimal (newId salt salt2 : Nat) (req : RegisterRequest)
    (p2 : String)
    (hbind : bindRegisterRequest req = none)
    (hbind2 : bindRegisterRequest { req with password := p2 } = none) :
    (registerHandler newId salt true req).1 = RegisterResult.created newId req.email
    ∧ ∀ insertOk : Bool,
        (registerHandler newId salt2 insertOk { req with password := p2 }).1 =
          (registerHandler newId salt2 insertOk req).1 := by
  constructor
  · simp [registerHandler, hbind, bcryptGenerateFromPassword, bcryptDefaultCost,
      bcryptMaxCost]
  · intro insertOk
    cases insertOk <;>
      simp [registerHandler, hbind, hbind2, bcryptGenerateFromPassword,
        bcryptDefaultCost, bcryptMaxCost]

/-- Witness for C9: the concrete valid registration with two valid
passwords. -/
theorem c9_register_response_minimal_witness :
    (registerHandler 7 3 true registerReq0).1 = RegisterResult.created 7 registerReq0.email
    ∧ ∀ insertOk : Bool,
        (registerHandler 7 4 insertOk { registerReq0 with password := altPassword0 }).1 =
          (registerHandler 7 4 insertOk registerReq0).1 :=
  c9_register_response_minimal 7 3 4 registerReq0 altPassword0 (by decide) (by decide)

/-- Claim C10: a login whose password has fewer than 8 characters is
rejected by the binding layer as a bad request before the credential
store is consulted, an outcome distinct from the generic unauthorized
response. -/
theorem c10_login_short_password_rejected (st : AppState) (find : String → Option User)
    (now : Nat) (req : loginRequest) (hshort : req.password.length < 8) :
    (∃ msg, (loginHandler st find now req).1 = LoginResult.badRequest msg)
    ∧ (loginHandler st find now req).2.storeQueried = false
    ∧ ∀ msg, (loginHandler st find now req).1 ≠ LoginResult.unauthorized msg := by
  obtain ⟨m, hm⟩ := bindLoginRequest_some req hshort
  refine ⟨⟨m, ?_⟩, ?_, ?_⟩ <;> simp [loginHandler, hm]

/-- Witness for C10: a concrete login attempt with the 5-character
password. -/
theorem c10_login_short_password_rejected_witness :
    (∃ msg, (loginHandler (initApp key0) findUser0 1000000 shortLoginReq0).1 =
        LoginResult.badRequest msg)
    ∧ (loginHandler (initApp key0) findUser0 1000000 shortLoginReq0).2.storeQueried = false
    ∧ ∀ msg, (loginHandler (initApp key0) findUser0 1000000 shortLoginReq0).1 ≠
        LoginResult.unauthorized msg :=
  c10_login_short_password_rejected (initApp key0) findUser0 1000000 shortLoginReq0
    (by decide)

end AuthService
